import Mathlib

/-!
Verification of the JSON-RPC 1.1 service (`src/jsonrpc.py`).

The embedding below translates the protocol core of `jsonrpc.py` into
Lean.  The external collaborators named in the spec (the `simplejson`
encode/decode routines, the HTTP transport, Django's request object)
are modelled through the narrow interface the core consumes:

* a decoded POST body is an `Option Json` (`none` models bytes that the
  external JSON decoder rejects);
* `to_json` is a concrete serializer for the `Json` model, standing in
  for `simplejson.dumps`;
* the transport round trips of the client proxy are cut at the point
  where the core hands an envelope to `urllib2` or receives a decoded
  response back.

Raised Python exceptions are modelled by the `Except PyExc` monad,
carrying the exception's type name and message text.
-/

namespace JsonRpc

/-- JSON values as exchanged with the external `simplejson` collaborator.
Numbers are modelled as integers (no claim involves floats); objects keep
their field order as an association list. -/
inductive Json where
  | null : Json
  | bool (b : Bool) : Json
  | num (n : Int) : Json
  | str (s : String) : Json
  | arr (elems : List Json) : Json
  | obj (fields : List (String × Json)) : Json

/-- A raised Python exception, abstracted to its type name (`type(e).__name__`)
and its message text (`str(e)`). -/
structure PyExc where
  etype : String
  evalue : String
deriving DecidableEq

/-- `data[key]` on a decoded JSON value: a hit on an object returns the
value, anything else (missing key, non-object receiver) is `none`; the
caller decides which Python exception the miss corresponds to. -/
def dict_get (j : Json) (key : String) : Option Json :=
  match j with
  | .obj fields => (fields.find? (fun p => p.1 == key)).map (fun p => p.2)
  | _ => none

/-- `'%s' % v`: the Python string conversion of a value.  Claims only ever
format strings (method names); the composite cases are abbreviated. -/
def pyStr : Json → String
  | .str s => s
  | .num n => toString n
  | .bool true => ("True")
  | .bool false => ("False")
  | .null => ("None")
  | .arr _ => ("<list>")
  | .obj _ => ("<dict>")

mutual

/-- Serializer for the `Json` model, standing in for `simplejson.dumps`
(`ServiceBase.to_json`, line 21-22 of the source). -/
def to_json : Json → String
  | .null => ("null")
  | .bool true => ("true")
  | .bool false => ("false")
  | .num n => toString n
  | .str s => "\"" ++ s ++ "\""
  | .arr xs => "[" ++ to_json_elems xs ++ "]"
  | .obj fs => "\x7b" ++ to_json_fields fs ++ "\x7d"

/-- Comma-separated serialization of array elements. -/
def to_json_elems : List Json → String
  | [] => ""
  | [x] => to_json x
  | x :: y :: xs => to_json x ++ ", " ++ to_json_elems (y :: xs)

/-- Comma-separated serialization of object fields. -/
def to_json_fields : List (String × Json) → String
  | [] => ""
  | [(k, v)] => "\"" ++ k ++ "\": " ++ to_json v
  | (k, v) :: y :: fs => "\"" ++ k ++ "\": " ++ to_json v ++ ", " ++ to_json_fields (y :: fs)

end

/-- `ServiceBase.get_response(id, result)` (lines 24-30): the success
envelope, in the source's key order. -/
def get_response (id result : Json) : Json :=
  .obj [("version", .str ("1.1")), ("id", id), ("result", result), ("error", .null)]

/-- `ServiceBase.get_error(id, code, message)` (lines 32-41): the error
envelope, in the source's key order.  Note that unlike `get_response` it
carries no `result` key at all. -/
def get_error (id : Json) (code : Int) (message : String) : Json :=
  .obj [("id", id), ("version", .str ("1.1")),
        ("error", .obj [("name", .str ("JsonRpcError")), ("code", .num code),
                        ("message", .str message)])]

/-- The inbound request context.  Its only part the dispatcher inspects is
`raw_post_data`, which we carry already decoded by the external JSON
collaborator: `some v` is a body that decodes to `v`, `none` a body that
is not valid JSON. -/
structure Request where
  raw_post_data : Option Json

/-- A handler: a Python callable invoked as `method(request, *params)`.
A raised exception is an `Except.error`. -/
def Handler : Type := Request → List Json → Except PyExc Json

/-- A value stored in the method registry: a callable (together with the
argument names its declaration carries, as `inspect.getargspec` reports
them) or Python's `None`.  `None` is the only falsy registry value the
claims exercise. -/
inductive PyVal where
  | func (argnames : List String) (f : Handler) : PyVal
  | none_ : PyVal

/-- Python truthiness of a registry value: a function object is truthy,
`None` is falsy. -/
def truthy : PyVal → Bool
  | .func _ _ => true
  | .none_ => false

/-- The value an authorization hook returns.  `pair b msg` is a
two-element sequence that tuple-unpacks into `(auth, msg)` (with `b` the
truthiness of its first element); `other t` is any value whose unpacking
raises `ValueError` or `TypeError` (a plain boolean, `None`, a number, a
three-element tuple, ...), with `t` its own truthiness. -/
inductive AuthRet where
  | pair (b : Bool) (msg : String) : AuthRet
  | other (truthiness : Bool) : AuthRet

/-- `ServiceBase`: the method registry (an association list with unique
keys, standing in for the Python dict), the optional authorization hook,
and the `show_exceptions` flag (lines 14-19). -/
structure ServiceBase where
  methods : List (String × PyVal)
  auth_func : Option (Request → Json → Json → AuthRet)
  show_exceptions : Bool

/-- `ServiceBase.add_method` (lines 43-44): bind a name to a value,
overwriting any prior binding for the same name. -/
def add_method (svc : ServiceBase) (method_name : String) (m : PyVal) : ServiceBase :=
  { svc with methods := svc.methods.filter (fun p => p.1 ≠ method_name) ++ [(method_name, m)] }

/-- The `'method "%s" does not exist' % method_name` message (lines 54
and 76). -/
def not_exist_msg (method_name : Json) : String :=
  "method \"" ++ pyStr method_name ++ "\" does not exist"

/-- `ServiceBase.is_authorized` (lines 46-58).  With no hook everything is
authorized.  With a hook, its return value is tuple-unpacked; if the
unpacking raises `ValueError`/`TypeError`, `msg` falls back to the
method-does-not-exist text while `auth` keeps the returned value itself,
so the verdict is that value's own truthiness. -/
def is_authorized (svc : ServiceBase) (request : Request) (method_name : Json)
    (params : Json) : Bool × String :=
  match svc.auth_func with
  | some f =>
    match f request method_name params with
    | .pair b msg => (b, msg)
    | .other t => (t, not_exist_msg method_name)
  | none => (true, "")

/-- `ServiceBase.get_method` (lines 95-99): dict lookup guarded by
`except KeyError`, returning `None` on a miss.  A non-hashable key (a
JSON array or object) raises `TypeError`, which `get_method` does not
catch. -/
def get_method (svc : ServiceBase) (method_name : Json) : Except PyExc PyVal :=
  match method_name with
  | .str s =>
    match svc.methods.find? (fun p => p.1 == s) with
    | some p => .ok p.2
    | none => .ok .none_
  | .arr _ => .error ⟨("TypeError"), ("unhashable type")⟩
  | .obj _ => .error ⟨("TypeError"), ("unhashable type")⟩
  | _ => .ok .none_

/-- `ServiceBase.list_methods` (lines 92-93). -/
def list_methods (svc : ServiceBase) : List String :=
  svc.methods.map (fun p => p.1)

/-- The `*params` unpacking in `method(request, *params)` (line 80): a
JSON array unpacks to its elements, a string to its characters, an object
to its keys (in the model's field order), and a scalar raises
`TypeError`. -/
def unpack_params : Json → Except PyExc (List Json)
  | .arr xs => .ok xs
  | .str s => .ok (s.toList.map (fun c => Json.str (String.singleton c)))
  | .obj fs => .ok (fs.map (fun p => Json.str p.1))
  | _ => .error ⟨("TypeError"), ("argument after * must be a sequence")⟩

/-- `method(request, *params)` (line 80): unpack the params and call the
handler.  Calling `None` would raise `TypeError`; the dispatcher only
reaches this after the truthiness check, so that branch is the model of
Python's "not callable" failure. -/
def invoke (m : PyVal) (request : Request) (params : Json) : Except PyExc Json :=
  match unpack_params params with
  | .error e => .error e
  | .ok args =>
    match m with
    | .func _ f => f request args
    | .none_ => .error ⟨("TypeError"), ("NoneType object is not callable")⟩

/-- The exception the blanket `except:` branch of `process_request`
actually raises (line 66): the local variable `id` is only assigned by
the tuple assignment on line 63, whose right-hand side is evaluated in
full before any name is bound, so whenever that `try` block fails, `id`
is unbound and `self.get_error(id, ...)` raises `UnboundLocalError`,
which nothing catches. -/
def unbound_local_id : PyExc :=
  ⟨("UnboundLocalError"), ("local variable id referenced before assignment")⟩

/-- Extraction of `data['id'], data['method'], data['params']` from the
decoded POST body (lines 62-63): `none` when the body did not decode or
any of the three subscripts fails. -/
def parse_request (raw : Option Json) : Option (Json × Json × Json) :=
  match raw with
  | none => none
  | some d =>
    match dict_get d ("id"), dict_get d ("method"), dict_get d ("params") with
    | some i, some m, some p => some (i, m, p)
    | _, _, _ => none

/-- Lines 74-90 of `ServiceBase.process_request`: resolve the method,
require it truthy, invoke it inside the `try`, and format the success or
error envelope.  `except Exception` catches every handler failure (all
modelled failures derive from `Exception`). -/
def dispatch (svc : ServiceBase) (request : Request) (id method_name params : Json) :
    Except PyExc String :=
  match get_method svc method_name with
  | .error e => .error e
  | .ok m =>
    if truthy m then
      match invoke m request params with
      | .ok result => .ok (to_json (get_response id result))
      | .error e =>
        if svc.show_exceptions then
          .ok (to_json (get_error id 100 (e.etype ++ ": " ++ e.evalue)))
        else
          .ok (to_json (get_error id 100 ("An error occurred")))
    else
      .ok (to_json (get_error id 100 (not_exist_msg method_name)))

/-- `ServiceBase.process_request` (lines 60-90): parse, authorize, then
`dispatch`.  The malformed branch reproduces the source's slip: the
`except:` handler references the unassigned local `id`, so the whole
call raises `UnboundLocalError` instead of returning the intended
code-100 envelope. -/
def process_request (svc : ServiceBase) (request : Request) : Except PyExc String :=
  match parse_request request.raw_post_data with
  | none => .error unbound_local_id
  | some (id, method_name, params) =>
    let auth := is_authorized svc request method_name params
    if auth.1 then
      dispatch svc request id method_name params
    else
      .ok (to_json (get_error id 100 auth.2))

/-- One SMD method entry (lines 109-114): `inspect.getargspec` on the
registered value (raising `TypeError` on a non-function such as `None`),
then the list comprehension keeping every declared argument name that is
not `self` and not `request`, regardless of its position. -/
def smd_entry (method_name : String) (m : PyVal) : Except PyExc Json :=
  match m with
  | .func argnames _ =>
    .ok (.obj [("name", .str method_name),
               ("parameters", .arr ((argnames.filter
                 (fun v => !(v == ("self") || v == ("request")))).map
                   (fun v => Json.obj [("name", .str v)])))])
  | .none_ => .error ⟨("TypeError"), ("arg is not a Python function")⟩

/-- The `for method_name in self.list_methods()` loop of `get_smd`
(lines 108-114), walking the registry in order and stopping at the first
raised exception. -/
def smd_entries : List (String × PyVal) → Except PyExc (List Json)
  | [] => .ok []
  | p :: rest =>
    match smd_entry p.1 p.2 with
    | .error e => .error e
    | .ok j =>
      match smd_entries rest with
      | .error e => .error e
      | .ok js => .ok (j :: js)

/-- `ServiceBase.get_smd(url)` (lines 101-116): the serialized service
description. -/
def get_smd (svc : ServiceBase) (url : String) : Except PyExc String :=
  match smd_entries svc.methods with
  | .error e => .error e
  | .ok entries =>
    .ok (to_json (.obj [("serviceType", .str ("JSON-RPC")),
                        ("serviceURL", .str url),
                        ("methods", .arr entries)]))

/-- `ServiceProxy` state (lines 143-148).  The cached SMD and method list
are kept for fidelity; `call_id` is the call identifier. -/
structure ServiceProxy where
  smd_url : String
  service_url : String
  smd : Json
  methods : List String
  call_id : Nat

/-- `ServiceProxy.__init__(url)` (lines 143-148). -/
def ServiceProxy.init (url : String) : ServiceProxy :=
  { smd_url := url, service_url := url, smd := .obj [], methods := [], call_id := 0 }

/-- `ServiceProxy.call_method` up to the transport hand-off (lines
162-169): increment `call_id`, then build the outbound request envelope
in the source's key order.  The `urllib2` POST and the decoding of the
reply are the external transport collaborator, so the model returns the
updated proxy state together with the envelope it sends. -/
def call_method (p : ServiceProxy) (method_name : String) (params : List Json) :
    ServiceProxy × Json :=
  let p2 := { p with call_id := p.call_id + 1 }
  (p2, .obj [("method", .str method_name),
             ("params", .arr params),
             ("id", .num (Int.ofNat p2.call_id))])

/-- A sequence of `call_method` invocations on one proxy instance,
collecting the outbound envelopes in order. -/
def run_calls (p : ServiceProxy) : List (String × List Json) → ServiceProxy × List Json
  | [] => (p, [])
  | c :: cs =>
    let r1 := call_method p c.1 c.2
    let r2 := run_calls r1.1 cs
    (r2.1, r1.2 :: r2.2)

/-- The closure `wrapped` that `ServiceProxy.__getattr__` returns (lines
180-186), applied to the already-decoded response envelope: return
`resp['result']` if the key exists; on `KeyError` read
`resp['error']['name']` and `resp['error']['message']` and raise
`JsonRpcError` with the `'%s: %s'` message.  A failure while reading the
error object (missing key, unsubscriptable value) happens inside the
`except KeyError` handler and so propagates as its own exception. -/
def wrapped (resp : Json) : Except PyExc Json :=
  match dict_get resp ("result") with
  | some r => .ok r
  | none =>
    match dict_get resp ("error") with
    | none => .error ⟨("KeyError"), ("error")⟩
    | some e =>
      match dict_get e ("name") with
      | none =>
        match e with
        | .obj _ => .error ⟨("KeyError"), ("name")⟩
        | _ => .error ⟨("TypeError"), ("unsubscriptable object")⟩
      | some n =>
        match dict_get e ("message") with
        | none => .error ⟨("KeyError"), ("message")⟩
        | some m => .error ⟨("JsonRpcError"), pyStr n ++ ": " ++ pyStr m⟩

/-! ### Concrete fixtures

The registry of the spec's concrete scenario: `add(request, a, b)`
returning `a + b`, plus inputs the claims exercise. -/

/-- `def add(request, a, b): return a + b`.  A call with the wrong number
of arguments raises `TypeError` before the body runs; a call whose
arguments do not support `+` raises `TypeError` in the body.  Both are
modelled as the raised `TypeError`. -/
def add_handler : Handler := fun _ args =>
  match args with
  | [Json.num a, Json.num b] => .ok (.num (a + b))
  | _ => .error ⟨("TypeError"), ("add() argument mismatch")⟩

/-- A service whose registry binds `add` to `add_handler`, with no
authorization hook and `show_exceptions` off. -/
def svc_add : ServiceBase :=
  { methods := [(("add"), PyVal.func [("request"), ("a"), ("b")] add_handler)],
    auth_func := none,
    show_exceptions := false }

/-- The request `{"id": 1, "method": "add", "params": [2, 3]}`. -/
def req_add : Request :=
  ⟨some (.obj [(("id"), .num 1), (("method"), .str ("add")),
               (("params"), .arr [.num 2, .num 3])])⟩

/-- The request `{"id": 7, "method": "missing", "params": []}`. -/
def req_missing : Request :=
  ⟨some (.obj [(("id"), .num 7), (("method"), .str ("missing")),
               (("params"), .arr [])])⟩

/-! ### Helper lemmas shared by the claims -/

/-- Reduction of the field extraction when all three subscripts hit. -/
theorem parse_request_some (raw : Option Json) (d id m p : Json)
    (hraw : raw = some d) (hid : dict_get d ("id") = some id)
    (hm : dict_get d ("method") = some m) (hp : dict_get d ("params") = some p) :
    parse_request raw = some (id, m, p) := by
  subst hraw
  simp [parse_request, hid, hm, hp]

/-- Reduction of `process_request` on a request that parses: the
authorization gate followed by `dispatch`. -/
theorem process_request_parsed (svc : ServiceBase) (req : Request) (d id mname params : Json)
    (hraw : req.raw_post_data = some d) (hid : dict_get d ("id") = some id)
    (hm : dict_get d ("method") = some mname) (hp : dict_get d ("params") = some params) :
    process_request svc req =
      if (is_authorized svc req mname params).1 then
        dispatch svc req id mname params
      else
        .ok (to_json (get_error id 100 (is_authorized svc req mname params).2)) := by
  unfold process_request
  rw [parse_request_some req.raw_post_data d id mname params hraw hid hm hp]

/-! ### The claims -/

/-- Claim C1 (amended: the request must additionally pass the
authorization gate — a rejecting hook preempts dispatch).  For every
well-formed, authorized request whose method name resolves to a callable
registry entry whose invocation with the context and the unpacked
positional params succeeds, `process_request` returns the serialized
success envelope with version `1.1`, `error` null, `result` the
handler's return value, and `id` echoed from the request. -/
theorem claim1_amended (svc : ServiceBase) (req : Request)
    (d id mname params result : Json) (argnames : List String) (f : Handler)
    (args : List Json)
    (hraw : req.raw_post_data = some d) (hid : dict_get d ("id") = some id)
    (hm : dict_get d ("method") = some mname) (hp : dict_get d ("params") = some params)
    (hauth : (is_authorized svc req mname params).1 = true)
    (hlook : get_method svc mname = .ok (PyVal.func argnames f))
    (hunpack : unpack_params params = .ok args)
    (hcall : f req args = .ok result) :
    process_request svc req = .ok (to_json (get_response id result)) ∧
    dict_get (get_response id result) ("version") = some (.str ("1.1")) ∧
    dict_get (get_response id result) ("error") = some .null ∧
    dict_get (get_response id result) ("result") = some result ∧
    dict_get (get_response id result) ("id") = some id := by
  refine ⟨?_, rfl, rfl, rfl, rfl⟩
  rw [process_request_parsed svc req d id mname params hraw hid hm hp, hauth]
  unfold dispatch
  rw [hlook]
  simp [truthy, invoke, hunpack, hcall]

/-- The claim C1 quantifies over is falsified when an authorization hook
rejects: all of its hypotheses hold (the method is bound, the handler
would return 5), yet the response is an error envelope, not the success
envelope. -/
def svc_add_deny : ServiceBase :=
  { svc_add with auth_func := some (fun _ _ _ => AuthRet.pair false ("denied")) }

/-- Claim C1, counterexample: with `add` registered and the handler
succeeding on `[2, 3]`, a rejecting hook makes `process_request` return
an error envelope (its `error` is populated, it has no `result` key),
contradicting the claim's unconditional success envelope. -/
theorem claim1_counterexample :
    process_request svc_add_deny req_add =
      .ok (to_json (get_error (Json.num 1) 100 ("denied"))) ∧
    dict_get (get_error (Json.num 1) 100 ("denied")) ("error") ≠ some Json.null ∧
    dict_get (get_error (Json.num 1) 100 ("denied")) ("result") = none := by
  refine ⟨rfl, ?_, rfl⟩
  intro h
  exact Json.noConfusion (Option.some.inj h)

/-- Claim C1, witness: the spec's concrete scenario
`{"id": 1, "method": "add", "params": [2, 3]}` against the `add`
registry. -/
theorem claim1_witness :
    process_request svc_add req_add = .ok (to_json (get_response (Json.num 1) (Json.num 5))) ∧
    dict_get (get_response (Json.num 1) (Json.num 5)) ("version") = some (.str ("1.1")) ∧
    dict_get (get_response (Json.num 1) (Json.num 5)) ("error") = some .null ∧
    dict_get (get_response (Json.num 1) (Json.num 5)) ("result") = some (Json.num 5) ∧
    dict_get (get_response (Json.num 1) (Json.num 5)) ("id") = some (Json.num 1) :=
  claim1_amended svc_add req_add
    (.obj [(("id"), .num 1), (("method"), .str ("add")), (("params"), .arr [.num 2, .num 3])])
    (Json.num 1) (.str ("add")) (.arr [.num 2, .num 3]) (Json.num 5)
    [("request"), ("a"), ("b")] add_handler [.num 2, .num 3]
    rfl rfl rfl rfl rfl rfl rfl rfl

/-- Claim C2: for every malformed payload (undecodable bytes or a decoded
object missing `id`, `method` or `params`), `process_request` does not
return the intended code-100 envelope: the blanket `except:` handler
reads the local `id`, which the failed tuple assignment never bound, so
the call raises `UnboundLocalError`.  The claim (and the spec's intent,
visible in the `get_error(id, 100, 'Malformed JSON-RPC 1.1 request')`
call) is contradicted by this slip in the code. -/
theorem claim2_bug (svc : ServiceBase) (req : Request)
    (h : parse_request req.raw_post_data = none) :
    process_request svc req = .error unbound_local_id := by
  unfold process_request
  rw [h]

/-- Claim C2, witness: an undecodable POST body. -/
theorem claim2_witness : process_request svc_add ⟨none⟩ = .error unbound_local_id :=
  claim2_bug svc_add ⟨none⟩ rfl

/-- Claim C3: for every well-formed, authorized request naming a method
with no registry entry, `process_request` returns an error envelope with
code 100 and message exactly `method "<name>" does not exist`. -/
theorem claim3_not_found (svc : ServiceBase) (req : Request)
    (d id params : Json) (name : String)
    (hraw : req.raw_post_data = some d) (hid : dict_get d ("id") = some id)
    (hm : dict_get d ("method") = some (.str name)) (hp : dict_get d ("params") = some params)
    (hauth : (is_authorized svc req (.str name) params).1 = true)
    (hlook : svc.methods.find? (fun p => p.1 == name) = none) :
    process_request svc req =
      .ok (to_json (get_error id 100 (not_exist_msg (.str name)))) ∧
    not_exist_msg (.str name) = "method \"" ++ name ++ "\" does not exist" := by
  constructor
  · rw [process_request_parsed svc req d id (.str name) params hraw hid hm hp, hauth]
    unfold dispatch
    simp only [get_method]
    rw [hlook]
    simp [truthy]
  · rfl

/-- Claim C3, witness: `{"id": 7, "method": "missing", "params": []}`
against the `add` registry. -/
theorem claim3_witness :
    process_request svc_add req_missing =
      .ok (to_json (get_error (Json.num 7) 100 (not_exist_msg (Json.str ("missing"))))) :=
  (claim3_not_found svc_add req_missing
    (.obj [(("id"), .num 7), (("method"), .str ("missing")), (("params"), .arr [])])
    (Json.num 7) (.arr []) ("missing") rfl rfl rfl rfl rfl rfl).1

/-- Claim C4 (amended: an undecomposable hook return value keeps its own
truthiness as the authorization verdict, with the fallback message).
When the hook's return does not tuple-unpack into a pair, `auth` keeps
the returned value itself and only `msg` falls back to
`method "<name>" does not exist`: a falsy undecomposable value (such as
`None`) is rejected with the fallback message, while a truthy one (such
as a plain `True`) is treated as authorized and processing continues
with method resolution. -/
theorem claim4_amended (svc : ServiceBase) (req : Request) (d id mname params : Json)
    (t : Bool) (f : Request → Json → Json → AuthRet)
    (hf : svc.auth_func = some f)
    (ho : f req mname params = AuthRet.other t)
    (hraw : req.raw_post_data = some d) (hid : dict_get d ("id") = some id)
    (hm : dict_get d ("method") = some mname) (hp : dict_get d ("params") = some params) :
    (t = false →
      process_request svc req = .ok (to_json (get_error id 100 (not_exist_msg mname)))) ∧
    (t = true → process_request svc req = dispatch svc req id mname params) := by
  have hA : is_authorized svc req mname params = (t, not_exist_msg mname) := by
    simp [is_authorized, hf, ho]
  rw [process_request_parsed svc req d id mname params hraw hid hm hp, hA]
  constructor
  · intro ht
    subst ht
    simp
  · intro ht
    subst ht
    simp

/-- A hook whose return value models Python's plain `True`: unpacking it
raises `TypeError`, and it is truthy. -/
def true_hook : Request → Json → Json → AuthRet := fun _ _ _ => AuthRet.other true

/-- A hook whose return value models Python's `None`: unpacking it raises
`TypeError`, and it is falsy. -/
def false_hook : Request → Json → Json → AuthRet := fun _ _ _ => AuthRet.other false

/-- The `add` service guarded by `true_hook`. -/
def svc_add_truehook : ServiceBase := { svc_add with auth_func := some true_hook }

/-- The `add` service guarded by `false_hook`. -/
def svc_add_falsehook : ServiceBase := { svc_add with auth_func := some false_hook }

/-- Claim C4, counterexample: with a hook returning a plain `True` (an
undecomposable value), the claim demands a `method does not exist` error
envelope, but the dispatcher treats the call as authorized and returns
the success envelope (`error` null). -/
theorem claim4_counterexample :
    process_request svc_add_truehook req_add =
      .ok (to_json (get_response (Json.num 1) (Json.num 5))) ∧
    dict_get (get_response (Json.num 1) (Json.num 5)) ("error") = some Json.null :=
  ⟨rfl, rfl⟩

/-- Claim C4, witness: a falsy undecomposable hook value is rejected with
the fallback message; a truthy one falls through to dispatch. -/
theorem claim4_witness :
    process_request svc_add_falsehook req_add =
      .ok (to_json (get_error (Json.num 1) 100 (not_exist_msg (Json.str ("add"))))) ∧
    process_request svc_add_truehook req_add =
      dispatch svc_add_truehook req_add (Json.num 1) (Json.str ("add"))
        (Json.arr [Json.num 2, Json.num 3]) :=
  ⟨(claim4_amended svc_add_falsehook req_add
      (.obj [(("id"), .num 1), (("method"), .str ("add")), (("params"), .arr [.num 2, .num 3])])
      (Json.num 1) (.str ("add")) (.arr [.num 2, .num 3]) false false_hook
      rfl rfl rfl rfl rfl rfl).1 rfl,
   (claim4_amended svc_add_truehook req_add
      (.obj [(("id"), .num 1), (("method"), .str ("add")), (("params"), .arr [.num 2, .num 3])])
      (Json.num 1) (.str ("add")) (.arr [.num 2, .num 3]) true true_hook
      rfl rfl rfl rfl rfl rfl).2 rfl⟩

/-- Claim C5: every failure raised by the handler invocation (the
`*params` unpacking and the call itself, so arity mismatches included)
is caught and turned into a code-100 error envelope: message
`"<type>: <value>"` when `show_exceptions` is set, the generic
`"An error occurred"` otherwise.  In particular the exception never
propagates out of `process_request` (the result is an `.ok`). -/
theorem claim5_handler_failure (svc : ServiceBase) (req : Request)
    (d id mname params : Json) (m : PyVal) (e : PyExc)
    (hraw : req.raw_post_data = some d) (hid : dict_get d ("id") = some id)
    (hm : dict_get d ("method") = some mname) (hp : dict_get d ("params") = some params)
    (hauth : (is_authorized svc req mname params).1 = true)
    (hlook : get_method svc mname = .ok m)
    (htr : truthy m = true)
    (hfail : invoke m req params = .error e) :
    process_request svc req =
      .ok (to_json (get_error id 100
        (if svc.show_exceptions then e.etype ++ ": " ++ e.evalue
         else ("An error occurred")))) := by
  rw [process_request_parsed svc req d id mname params hraw hid hm hp, hauth]
  unfold dispatch
  rw [hlook]
  cases hs : svc.show_exceptions <;> simp [htr, hfail, hs]

/-- The `add` service with `show_exceptions` enabled. -/
def svc_add_show : ServiceBase := { svc_add with show_exceptions := true }

/-- The request `{"id": 3, "method": "add", "params": [2]}`, an arity
mismatch for `add(request, a, b)`. -/
def req_add_bad : Request :=
  ⟨some (.obj [(("id"), .num 3), (("method"), .str ("add")), (("params"), .arr [.num 2])])⟩

/-- Claim C5, witness: the arity mismatch is masked to
`"An error occurred"` by default and exposed as `"<type>: <value>"`
with `show_exceptions` on. -/
theorem claim5_witness :
    process_request svc_add req_add_bad =
      .ok (to_json (get_error (Json.num 3) 100 ("An error occurred"))) ∧
    process_request svc_add_show req_add_bad =
      .ok (to_json (get_error (Json.num 3) 100 ("TypeError: add() argument mismatch"))) :=
  ⟨claim5_handler_failure svc_add req_add_bad
      (.obj [(("id"), .num 3), (("method"), .str ("add")), (("params"), .arr [.num 2])])
      (Json.num 3) (.str ("add")) (.arr [.num 2])
      (PyVal.func [("request"), ("a"), ("b")] add_handler)
      ⟨("TypeError"), ("add() argument mismatch")⟩
      rfl rfl rfl rfl rfl rfl rfl rfl,
   claim5_handler_failure svc_add_show req_add_bad
      (.obj [(("id"), .num 3), (("method"), .str ("add")), (("params"), .arr [.num 2])])
      (Json.num 3) (.str ("add")) (.arr [.num 2])
      (PyVal.func [("request"), ("a"), ("b")] add_handler)
      ⟨("TypeError"), ("add() argument mismatch")⟩
      rfl rfl rfl rfl rfl rfl rfl rfl⟩

/-- Claim C10: a falsy registered value (`None`) is indistinguishable,
for dispatch, from an unregistered name: the lookup succeeds and
`get_method` returns the registered value, but the `if not method` check
tests its truthiness and answers with the `method "<name>" does not
exist` code-100 envelope. -/
theorem claim10_falsy_handler (svc : ServiceBase) (req : Request)
    (d id params : Json) (name : String)
    (hraw : req.raw_post_data = some d) (hid : dict_get d ("id") = some id)
    (hm : dict_get d ("method") = some (.str name)) (hp : dict_get d ("params") = some params)
    (hauth : (is_authorized svc req (.str name) params).1 = true)
    (hreg : svc.methods.find? (fun p => p.1 == name) = some (name, PyVal.none_)) :
    get_method svc (.str name) = .ok PyVal.none_ ∧
    process_request svc req =
      .ok (to_json (get_error id 100 (not_exist_msg (.str name)))) := by
  have hg : get_method svc (.str name) = .ok PyVal.none_ := by
    simp only [get_method, hreg]
  refine ⟨hg, ?_⟩
  rw [process_request_parsed svc req d id (.str name) params hraw hid hm hp, hauth]
  unfold dispatch
  rw [hg]
  simp [truthy]

/-- A service whose registry binds `ghost` to `None`. -/
def svc_ghost : ServiceBase :=
  { methods := [(("ghost"), PyVal.none_)], auth_func := none, show_exceptions := false }

/-- The request `{"id": 2, "method": "ghost", "params": []}`. -/
def req_ghost : Request :=
  ⟨some (.obj [(("id"), .num 2), (("method"), .str ("ghost")), (("params"), .arr [])])⟩

/-- Claim C10, witness: the `ghost` name bound to `None`. -/
theorem claim10_witness :
    get_method svc_ghost (Json.str ("ghost")) = .ok PyVal.none_ ∧
    process_request svc_ghost req_ghost =
      .ok (to_json (get_error (Json.num 2) 100 (not_exist_msg (Json.str ("ghost"))))) :=
  claim10_falsy_handler svc_ghost req_ghost
    (.obj [(("id"), .num 2), (("method"), .str ("ghost")), (("params"), .arr [])])
    (Json.num 2) (.arr []) ("ghost") rfl rfl rfl rfl rfl rfl

/-- Claim C6 (amended: the branch is keyed on the presence of the
`result` key, not on `error` being populated).  The proxy's dynamically
dispatched call returns `resp['result']` whenever that key exists; only
on its absence does it read the error object and raise `JsonRpcError`
carrying `error.name` and `error.message`. -/
theorem claim6_amended (resp e n m : Json) :
    (∀ r, dict_get resp ("result") = some r → wrapped resp = .ok r) ∧
    (dict_get resp ("result") = none → dict_get resp ("error") = some e →
      dict_get e ("name") = some n → dict_get e ("message") = some m →
      wrapped resp = .error ⟨("JsonRpcError"), pyStr n ++ ": " ++ pyStr m⟩) := by
  constructor
  · intro r hr
    unfold wrapped
    rw [hr]
  · intro h1 h2 h3 h4
    unfold wrapped
    rw [h1, h2]
    simp only [h3, h4]

/-- The populated error object `{"name": "JsonRpcError", "code": 100,
"message": "boom"}`. -/
def err_boom : Json :=
  .obj [(("name"), .str ("JsonRpcError")), (("code"), .num 100), (("message"), .str ("boom"))]

/-- A response envelope carrying both a `result` key and a populated
`error`. -/
def resp_both : Json := .obj [(("result"), Json.null), (("error"), err_boom)]

/-- Claim C6, counterexample: on an envelope whose `error` is populated
but which also carries a `result` key, the call returns the result value
instead of raising, contradicting the claim's "for any envelope in which
error is populated, the call raises". -/
theorem claim6_counterexample :
    dict_get resp_both ("error") = some err_boom ∧
    err_boom ≠ Json.null ∧
    wrapped resp_both = .ok Json.null := by
  refine ⟨rfl, ?_, rfl⟩
  intro h
  exact Json.noConfusion h

/-- Claim C6, witness: a success envelope is unwrapped to its result; a
`get_error` envelope (which has no `result` key) raises `JsonRpcError`
with the error's name and message. -/
theorem claim6_witness :
    wrapped (get_response (Json.num 1) (Json.num 5)) = .ok (Json.num 5) ∧
    wrapped (get_error (Json.num 7) 100 ("boom")) =
      .error ⟨("JsonRpcError"), ("JsonRpcError: boom")⟩ :=
  ⟨(claim6_amended (get_response (Json.num 1) (Json.num 5)) Json.null Json.null Json.null).1
      (Json.num 5) rfl,
   (claim6_amended (get_error (Json.num 7) 100 ("boom"))
      (.obj [(("name"), .str ("JsonRpcError")), (("code"), .num 100),
             (("message"), .str ("boom"))])
      (.str ("JsonRpcError")) (.str ("boom"))).2 rfl rfl rfl rfl⟩

/-- Claim C7 (amended: only the success envelope carries both keys; the
error envelope produced by `get_error` has a populated `error` and no
`result` key at all).  Exactly one of the two outcomes is carried either
way. -/
theorem claim7_amended (id result : Json) (code : Int) (msg : String) :
    dict_get (get_response id result) ("result") = some result ∧
    dict_get (get_response id result) ("error") = some Json.null ∧
    dict_get (get_error id code msg) ("error") =
      some (Json.obj [(("name"), .str ("JsonRpcError")), (("code"), .num code),
                      (("message"), .str msg)]) ∧
    dict_get (get_error id code msg) ("result") = none :=
  ⟨rfl, rfl, rfl, rfl⟩

/-- Claim C7, counterexample: a dispatcher-produced error envelope (the
method-not-found response to `{"id": 7, "method": "missing",
"params": []}`) has no `result` key, contradicting "contains both the
result and the error key". -/
theorem claim7_counterexample :
    process_request svc_add req_missing =
      .ok (to_json (get_error (Json.num 7) 100 (not_exist_msg (Json.str ("missing"))))) ∧
    dict_get (get_error (Json.num 7) 100 (not_exist_msg (Json.str ("missing")))) ("result") =
      none :=
  ⟨rfl, rfl⟩

/-- An entry of a successful `smd_entries` run for every registered pair
whose own `smd_entry` succeeds. -/
theorem smd_entries_mem (name : String) (m : PyVal) (j : Json)
    (hej : smd_entry name m = .ok j) :
    ∀ (l : List (String × PyVal)) (es : List Json),
      smd_entries l = .ok es → (name, m) ∈ l → j ∈ es := by
  intro l
  induction l with
  | nil =>
    intro es _ hmem
    cases hmem
  | cons p rest ih =>
    intro es hok hmem
    simp only [smd_entries] at hok
    cases he : smd_entry p.1 p.2 with
    | error e =>
      rw [he] at hok
      cases hok
    | ok j1 =>
      rw [he] at hok
      cases hr : smd_entries rest with
      | error e =>
        rw [hr] at hok
        cases hok
      | ok js =>
        rw [hr] at hok
        injection hok with h2
        subst h2
        rcases List.mem_cons.mp hmem with h | h
        · rw [← h] at he
          rw [hej] at he
          injection he with h3
          rw [h3]
          exact List.mem_cons_self _ _
        · exact List.mem_cons_of_mem _ (ih js hr h)

/-- Claim C8 (amended: the SMD parameter list excludes every declared
parameter named `self` or `request`, wherever it occurs — the filter is
not limited to the leading context positions).  The listed parameters
are the handler's declared names in declaration order (a sublist), and a
name appears exactly when it is declared and is neither `self` nor
`request`. -/
theorem claim8_amended (svc : ServiceBase) (url : String) (name : String)
    (argnames : List String) (f : Handler) (s : String)
    (hmem : (name, PyVal.func argnames f) ∈ svc.methods)
    (hok : get_smd svc url = .ok s) :
    ∃ es, smd_entries svc.methods = .ok es ∧
      Json.obj [(("name"), .str name),
        (("parameters"), .arr ((argnames.filter
          (fun v => !(v == ("self") || v == ("request")))).map
            (fun v => Json.obj [(("name"), .str v)])))] ∈ es ∧
      (argnames.filter (fun v => !(v == ("self") || v == ("request")))).Sublist argnames ∧
      (∀ v, v ∈ argnames.filter (fun v => !(v == ("self") || v == ("request"))) ↔
        (v ∈ argnames ∧ v ≠ ("self") ∧ v ≠ ("request"))) := by
  cases hes : smd_entries svc.methods with
  | error e =>
    have hge : get_smd svc url = .error e := by
      unfold get_smd
      rw [hes]
    rw [hge] at hok
    cases hok
  | ok es =>
    refine ⟨es, rfl, ?_, List.filter_sublist _, ?_⟩
    · exact smd_entries_mem name (PyVal.func argnames f) _ rfl svc.methods es hes hmem
    · intro v
      simp [List.mem_filter, not_or]

/-- A handler declared as `f(request, a, self)`: `request` leads (a
conventional context argument) but `self` sits in a non-leading,
logical-argument position. -/
def ctx_handler : Handler := fun _ _ => .ok Json.null

/-- The service registering `f(request, a, self)`. -/
def svc_ctx : ServiceBase :=
  { methods := [(("f"), PyVal.func [("request"), ("a"), ("self")] ctx_handler)],
    auth_func := none, show_exceptions := false }

/-- Claim C8, counterexample: the SMD for `f(request, a, self)` lists
only `a`: the non-leading `self` is dropped too, so the claim's "a
parameter named self or request that is not in a leading context
position is retained" fails (the retained list would have been
`[a, self]`). -/
theorem claim8_counterexample :
    get_smd svc_ctx ("u") =
      .ok (to_json (Json.obj [(("serviceType"), .str ("JSON-RPC")),
        (("serviceURL"), .str ("u")),
        (("methods"), .arr [Json.obj [(("name"), .str ("f")),
          (("parameters"), .arr [Json.obj [(("name"), .str ("a"))]])]])])) ∧
    [("request"), ("a"), ("self")].filter
      (fun v => !(v == ("self") || v == ("request"))) = [("a")] ∧
    ([("a")] : List String) ≠ [("a"), ("self")] :=
  ⟨rfl, rfl, by decide⟩

/-- Claim C8, witness: the amended statement at the `f(request, a, self)`
service. -/
theorem claim8_witness :
    ∃ es, smd_entries svc_ctx.methods = .ok es ∧
      Json.obj [(("name"), .str ("f")),
        (("parameters"), .arr (([("request"), ("a"), ("self")].filter
          (fun v => !(v == ("self") || v == ("request")))).map
            (fun v => Json.obj [(("name"), .str v)])))] ∈ es ∧
      ([("request"), ("a"), ("self")].filter
        (fun v => !(v == ("self") || v == ("request")))).Sublist
          [("request"), ("a"), ("self")] ∧
      (∀ v, v ∈ [("request"), ("a"), ("self")].filter
          (fun v => !(v == ("self") || v == ("request"))) ↔
        (v ∈ [("request"), ("a"), ("self")] ∧ v ≠ ("self") ∧ v ≠ ("request"))) :=
  claim8_amended svc_ctx ("u") ("f") [("request"), ("a"), ("self")] ctx_handler
    (to_json (Json.obj [(("serviceType"), .str ("JSON-RPC")),
      (("serviceURL"), .str ("u")),
      (("methods"), .arr [Json.obj [(("name"), .str ("f")),
        (("parameters"), .arr [Json.obj [(("name"), .str ("a"))]])]])]))
    (List.mem_singleton.mpr rfl) rfl

/-- The outbound envelopes and final state of a run of `call_method`
calls, for an arbitrary starting proxy state. -/
theorem run_calls_spec (cs : List (String × List Json)) :
    ∀ p : ServiceProxy,
      (run_calls p cs).1.call_id = p.call_id + cs.length ∧
      (run_calls p cs).2.map (fun env => dict_get env ("id")) =
        (List.range cs.length).map
          (fun i => some (Json.num (Int.ofNat (p.call_id + i + 1)))) := by
  induction cs with
  | nil =>
    intro p
    simp [run_calls]
  | cons c cs ih =>
    intro p
    have ih1 := (ih { p with call_id := p.call_id + 1 }).1
    have ih2 := (ih { p with call_id := p.call_id + 1 }).2
    constructor
    · simp only [run_calls, call_method]
      rw [ih1]
      simp
      omega
    · have hd : dict_get (Json.obj [(("method"), .str c.1), (("params"), .arr c.2),
          (("id"), .num (Int.ofNat (p.call_id + 1)))]) ("id") =
          some (.num (Int.ofNat (p.call_id + 1))) := rfl
      have harg : ∀ i : Nat, p.call_id + 1 + i + 1 = p.call_id + (i + 1) + 1 := by
        omega
      simp only [run_calls, call_method, List.map_cons, List.length_cons,
        List.range_succ_eq_map, List.map_map]
      rw [ih2]
      simp [hd, Function.comp, harg]
      rfl

/-- Claim C9: the proxy's `call_id` starts at 0, is incremented before
each call, and after a run of calls equals the number of calls (3 after
three); the ids carried by the successive outbound envelopes are
`1, 2, 3, ...`, a strictly increasing sequence.  The increment happens
before the transport hand-off, so it is independent of the call's
outcome. -/
theorem claim9_call_ids (url : String) (cs : List (String × List Json)) :
    (ServiceProxy.init url).call_id = 0 ∧
    (run_calls (ServiceProxy.init url) cs).1.call_id = cs.length ∧
    (run_calls (ServiceProxy.init url) cs).2.map (fun env => dict_get env ("id")) =
      (List.range cs.length).map (fun i => some (Json.num (Int.ofNat (i + 1)))) ∧
    List.Pairwise (fun a b => a < b)
      ((List.range cs.length).map (fun i => i + 1)) := by
  refine ⟨rfl, ?_, ?_, ?_⟩
  · have h := (run_calls_spec cs (ServiceProxy.init url)).1
    simpa [ServiceProxy.init] using h
  · have h := (run_calls_spec cs (ServiceProxy.init url)).2
    simpa [ServiceProxy.init] using h
  · refine List.Pairwise.map _ ?_ (List.pairwise_lt_range cs.length)
    intro a b hab
    omega

end JsonRpc
